import Mathlib

/-!
Verification of the RxJS blog-post pipeline
(`BlogService.getBlogPosts` in `src/After/BBBankUI/src/app/services/blog.service.ts`
and the `ngOnInit` pipeline `getBlogPosts().pipe(map(p => p.filter(x => x.id < 10)))`
from the repository walkthrough).

The embedding models the single-emission push pipeline:
an activation (a `subscribe` call) issues the HTTP GET through a transport
double, and the resulting response is turned into an ordered trace of
subscriber callback events (`next`, `error`, `complete`).  The `map`
operator of `pipe` is embedded with its try/catch error boundary:
a step that throws is modelled as a step returning `Except.error`,
which the operator converts into an `error` event on the trace.
-/

set_option autoImplicit false

namespace BlogRx

universe u v

/-- The `Blog` interface from `app/models/posts.ts`:
`userId: number; id: number; title: string; body: string`. -/
structure Blog where
  userId : Int
  id : Int
  title : String
  body : String
deriving DecidableEq, Repr

/-- Information carried to the subscriber's `error` callback, following the
error taxonomy realised by `HttpClient` and the `map` operator:
a non-2xx response carries its status code; a transport fault and a parse
fault carry only a message; a fault thrown by a transformation step carries
the thrown message. -/
inductive ErrorInfo where
  | statusError (status : Nat) (message : String)
  | transportError (message : String)
  | parseError (message : String)
  | transformError (message : String)
deriving DecidableEq, Repr

/-- One callback invocation on the observer triple
(`next`, `error`, `complete`) of the walkthrough's
`subscribe(observer)` protocol. -/
inductive Event (α : Type u) where
  | next (v : α)
  | error (e : ErrorInfo)
  | complete
deriving DecidableEq

/-- Outcome of one GET as seen from the transport double:
a response with a status and a body parseable as `Blog[]`,
a response whose body does not parse, or a transport-level failure. -/
inductive HttpResult where
  | success (status : Nat) (body : List Blog)
  | malformed (status : Nat)
  | transportFail (message : String)
deriving DecidableEq, Repr

/-- Whether an HTTP status is in the 2xx success range. -/
def is2xx (s : Nat) : Bool :=
  decide (200 ≤ s) && decide (s < 300)

/-- The callback trace `HttpClient.get<Blog[]>` delivers for a given
transport outcome: on a 2xx response with a parseable body it calls
`next(body)` then `complete()`; on a non-2xx status it calls `error`
with the status attached; on an unparseable 2xx body it calls `error`
with a parse failure; on a transport fault it calls `error` with the
fault message. -/
def httpGetEvents (resp : HttpResult) : List (Event (List Blog)) :=
  match resp with
  | HttpResult.success s body =>
      if is2xx s then [Event.next body, Event.complete]
      else [Event.error (ErrorInfo.statusError s "Http failure response")]
  | HttpResult.malformed s =>
      if is2xx s then [Event.error (ErrorInfo.parseError "Http failure during parsing")]
      else [Event.error (ErrorInfo.statusError s "Http failure response")]
  | HttpResult.transportFail msg => [Event.error (ErrorInfo.transportError msg)]

/-- A cold observable over the transport: the URL it will request when
subscribed, and the callback trace it delivers for each transport outcome
of that request. -/
structure Producer (α : Type u) where
  url : String
  run : HttpResult → List (Event α)

/-- `getBlogPosts` from `blog.service.ts`:
`return this.httpClient.get<Blog[]>(environment.baseUrl + 'posts')`. -/
def getBlogPosts (baseUrl : String) : Producer (List Blog) :=
  { url := baseUrl ++ "posts", run := httpGetEvents }

/-- The transport double: a stubbed response for each URL, and the log of
GET requests issued so far. -/
structure Transport where
  respond : String → HttpResult
  log : List String

/-- `subscribe`: activating a producer issues its GET through the transport
(recording the request in the log) and delivers the resulting callback
trace to the subscriber. -/
def activate {α : Type u} (t : Transport) (p : Producer α) :
    Transport × List (Event α) :=
  ({ respond := t.respond, log := t.log ++ [p.url] }, p.run (t.respond p.url))

/-- Calling the service method `getBlogPosts` itself: `HttpClient.get`
returns a cold observable, so the call only constructs the producer and
performs no transport interaction (the GET happens at `subscribe`). -/
def getBlogPostsCall (baseUrl : String) (t : Transport) :
    Transport × Producer (List Blog) :=
  (t, getBlogPosts baseUrl)

/-- The `map` operator applied to a source trace.  The projection runs
inside the operator's try/catch boundary: a projection that throws is a
projection returning `Except.error`, and the operator then delivers
`error` to the destination and unsubscribes, so nothing from the source
trace is delivered afterwards.  Source `error` and `complete` are
forwarded and terminate the trace. -/
def mapEvents {α : Type u} {β : Type v} (f : α → Except String β) :
    List (Event α) → List (Event β)
  | [] => []
  | Event.next v :: rest =>
      match f v with
      | Except.ok w => Event.next w :: mapEvents f rest
      | Except.error m => [Event.error (ErrorInfo.transformError m)]
  | Event.error e :: _ => [Event.error e]
  | Event.complete :: _ => [Event.complete]

/-- `source.pipe(map(f))`: same request URL, trace transformed by the
`map` operator. -/
def pipeMap {α : Type u} {β : Type v} (p : Producer α) (f : α → Except String β) :
    Producer β :=
  { url := p.url, run := fun resp => mapEvents f (p.run resp) }

/-- `source.pipe(step1, step2, ...)`: the steps are applied in the order
supplied, left to right. -/
def pipeSteps {α : Type u} (p : Producer α) :
    List (α → Except String α) → Producer α
  | [] => p
  | f :: fs => pipeSteps (pipeMap p f) fs

/-- `Array.prototype.filter` over a `Blog` collection with a predicate that
may itself throw (modelled as returning `Except.error`): elements are
tested left to right, kept when the predicate holds, and a thrown fault
aborts the whole application. -/
def filterE (pred : Blog → Except String Bool) : List Blog → Except String (List Blog)
  | [] => Except.ok []
  | b :: rest =>
      match pred b with
      | Except.error m => Except.error m
      | Except.ok keep =>
          match filterE pred rest with
          | Except.error m => Except.error m
          | Except.ok tail => Except.ok (if keep then b :: tail else tail)

/-- The generic predicate-filter step constructor:
`filterBy(pred)` keeps exactly the elements satisfying `pred`, in order. -/
def filterBy (pred : Blog → Bool) (c : List Blog) : List Blog :=
  c.filter pred

/-- The threshold predicate family: `x => x.id < n`. -/
def idLt (n : Int) (b : Blog) : Bool :=
  decide (b.id < n)

/-- The concrete transformation step of `ngOnInit`:
`p => p.filter(x => x.id < 10)`. -/
def ngOnInitStep (c : List Blog) : List Blog :=
  c.filter (fun x => decide (x.id < 10))

/-- The pipeline built in `ngOnInit`:
`this.blogService.getBlogPosts().pipe(map(p => p.filter(x => x.id < 10)))`. -/
def ngOnInitProducer (baseUrl : String) : Producer (List Blog) :=
  pipeMap (getBlogPosts baseUrl) (fun p => Except.ok (ngOnInitStep p))

/-- Number of `next` callbacks in a trace. -/
def nextCount {α : Type u} (es : List (Event α)) : Nat :=
  (es.filter fun e => match e with | Event.next _ => true | _ => false).length

/-- Number of `error` callbacks in a trace. -/
def errorCount {α : Type u} (es : List (Event α)) : Nat :=
  (es.filter fun e => match e with | Event.error _ => true | _ => false).length

/-- Number of `complete` callbacks in a trace. -/
def completeCount {α : Type u} (es : List (Event α)) : Nat :=
  (es.filter fun e => match e with | Event.complete => true | _ => false).length

/-- Whether a callback is terminal (`error` or `complete`). -/
def isTerminal {α : Type u} : Event α → Bool
  | Event.next _ => false
  | Event.error _ => true
  | Event.complete => true

/-- The single-emission shape: a trace is either one `next` followed by one
`complete`, or a single `error`. -/
def SingleEmission {α : Type u} (es : List (Event α)) : Prop :=
  (∃ v, es = [Event.next v, Event.complete]) ∨ ∃ e, es = [Event.error e]

/-- Whether a transport outcome is a 2xx response with a parseable body. -/
def isSuccess2xx : HttpResult → Bool
  | HttpResult.success s _ => is2xx s
  | _ => false

lemma httpGetEvents_shape (resp : HttpResult) : SingleEmission (httpGetEvents resp) := by
  cases resp with
  | success s body =>
      simp only [httpGetEvents]
      split
      · exact Or.inl ⟨body, rfl⟩
      · exact Or.inr ⟨_, rfl⟩
  | malformed s =>
      simp only [httpGetEvents]
      split
      · exact Or.inr ⟨_, rfl⟩
      · exact Or.inr ⟨_, rfl⟩
  | transportFail m => exact Or.inr ⟨_, rfl⟩

lemma mapEvents_shape {α : Type u} {β : Type v} (f : α → Except String β)
    (es : List (Event α)) (h : SingleEmission es) :
    SingleEmission (mapEvents f es) := by
  rcases h with ⟨v, rfl⟩ | ⟨e, rfl⟩
  · cases hf : f v with
    | ok w => exact Or.inl ⟨w, by simp [mapEvents, hf]⟩
    | error m => exact Or.inr ⟨ErrorInfo.transformError m, by simp [mapEvents, hf]⟩
  · exact Or.inr ⟨e, by simp [mapEvents]⟩

lemma pipeSteps_shape {α : Type u} (steps : List (α → Except String α)) :
    ∀ p : Producer α, (∀ r, SingleEmission (p.run r)) →
      ∀ r, SingleEmission ((pipeSteps p steps).run r) := by
  induction steps with
  | nil => exact fun p hp r => hp r
  | cons f fs ih =>
      exact fun p hp r =>
        ih (pipeMap p f) (fun r2 => mapEvents_shape f (p.run r2) (hp r2)) r

lemma singleEmission_props {α : Type u} (es : List (Event α))
    (h : SingleEmission es) :
    nextCount es ≤ 1 ∧ completeCount es ≤ 1 ∧
      (errorCount es = 0 ∨ (nextCount es = 0 ∧ completeCount es = 0)) ∧
      ∀ e ∈ es.dropLast, isTerminal e = false := by
  rcases h with ⟨v, rfl⟩ | ⟨e, rfl⟩ <;>
    simp [nextCount, completeCount, errorCount, isTerminal]

lemma run_failure_shape (baseUrl : String) (resp : HttpResult)
    (h : isSuccess2xx resp = false) :
    ∃ e, (getBlogPosts baseUrl).run resp = [Event.error e] := by
  rcases httpGetEvents_shape resp with ⟨v, hv⟩ | ⟨e, he⟩
  · exfalso
    cases resp with
    | success s body =>
        simp only [isSuccess2xx] at h
        simp [httpGetEvents, h] at hv
    | malformed s =>
        simp only [httpGetEvents] at hv
        split at hv <;> simp at hv
    | transportFail m => simp [httpGetEvents] at hv
  · exact ⟨e, he⟩

/-- A predicate that throws on a particular malformed element, used as a
concrete instance of a faulting transformation step. -/
def throwingPred (b : Blog) : Except String Bool :=
  if b.id = 15 then Except.error "malformed element" else Except.ok (decide (b.id < 10))

/-- C1: on every successful 2xx response with body `body`, the `ngOnInit`
pipeline `getBlogPosts().pipe(map(p => p.filter(x => x.id < 10)))` delivers
to the subscriber exactly one `next` carrying the sub-sequence of `body`
whose elements have `id < 10` (a sublist of `body`, hence in the original
relative order, containing exactly the elements with `id < 10`), followed
by `complete`. -/
theorem c1_filter_pipeline_delivers_subsequence (baseUrl : String) (s : Nat)
    (body : List Blog) (h : is2xx s = true) :
    (ngOnInitProducer baseUrl).run (HttpResult.success s body) =
      [Event.next (List.filter (fun x => decide (x.id < 10)) body), Event.complete] ∧
    (List.filter (fun x => decide (x.id < 10)) body).Sublist body ∧
    ∀ x : Blog, x ∈ List.filter (fun x => decide (x.id < 10)) body ↔
      x ∈ body ∧ x.id < 10 := by
  refine ⟨?_, List.filter_sublist body, ?_⟩
  · simp [ngOnInitProducer, pipeMap, getBlogPosts, httpGetEvents, h, mapEvents, ngOnInitStep]
  · intro x
    simp [List.mem_filter]

/-- Witness for C1: the worked scenario — input `[{id:1},{id:15},{id:9}]`
with predicate `id < 10` yields `next [{id:1},{id:9}]` then `complete`. -/
theorem c1_filter_pipeline_delivers_subsequence_witness :
    is2xx 200 = true ∧
    (ngOnInitProducer "https://jsonplaceholder.typicode.com/").run
        (HttpResult.success 200
          [Blog.mk 1 1 "t1" "b1", Blog.mk 1 15 "t15" "b15", Blog.mk 1 9 "t9" "b9"]) =
      [Event.next [Blog.mk 1 1 "t1" "b1", Blog.mk 1 9 "t9" "b9"], Event.complete] := by
  refine ⟨by decide, ?_⟩
  have h := (c1_filter_pipeline_delivers_subsequence
    "https://jsonplaceholder.typicode.com/" 200
    [Blog.mk 1 1 "t1" "b1", Blog.mk 1 15 "t15" "b15", Blog.mk 1 9 "t9" "b9"]
    (by decide)).1
  rw [h]
  rfl

/-- C2: for every activation of `getBlogPosts` composed with any list of
transformation steps, and every transport outcome, the delivered trace
invokes `next` at most once and `complete` at most once, never takes both
the error branch and the value branch, and invokes no further callback
after a terminal (`error` or `complete`) event. -/
theorem c2_single_emission_invariant (baseUrl : String)
    (steps : List (List Blog → Except String (List Blog))) (resp : HttpResult) :
    nextCount ((pipeSteps (getBlogPosts baseUrl) steps).run resp) ≤ 1 ∧
    completeCount ((pipeSteps (getBlogPosts baseUrl) steps).run resp) ≤ 1 ∧
    (errorCount ((pipeSteps (getBlogPosts baseUrl) steps).run resp) = 0 ∨
      (nextCount ((pipeSteps (getBlogPosts baseUrl) steps).run resp) = 0 ∧
       completeCount ((pipeSteps (getBlogPosts baseUrl) steps).run resp) = 0)) ∧
    ∀ e ∈ ((pipeSteps (getBlogPosts baseUrl) steps).run resp).dropLast,
      isTerminal e = false :=
  singleEmission_props _
    (pipeSteps_shape steps (getBlogPosts baseUrl)
      (fun r => httpGetEvents_shape r) resp)

/-- Witness for C2: the invariant instantiated at a concrete activation
(one filter step, 2xx response with three posts). -/
theorem c2_single_emission_invariant_witness :
    nextCount ((pipeSteps (getBlogPosts "https://jsonplaceholder.typicode.com/")
        [fun p => Except.ok (ngOnInitStep p)]).run
        (HttpResult.success 200 [Blog.mk 1 1 "t1" "b1"])) ≤ 1 ∧
    completeCount ((pipeSteps (getBlogPosts "https://jsonplaceholder.typicode.com/")
        [fun p => Except.ok (ngOnInitStep p)]).run
        (HttpResult.success 200 [Blog.mk 1 1 "t1" "b1"])) ≤ 1 ∧
    (errorCount ((pipeSteps (getBlogPosts "https://jsonplaceholder.typicode.com/")
        [fun p => Except.ok (ngOnInitStep p)]).run
        (HttpResult.success 200 [Blog.mk 1 1 "t1" "b1"])) = 0 ∨
      (nextCount ((pipeSteps (getBlogPosts "https://jsonplaceholder.typicode.com/")
          [fun p => Except.ok (ngOnInitStep p)]).run
          (HttpResult.success 200 [Blog.mk 1 1 "t1" "b1"])) = 0 ∧
       completeCount ((pipeSteps (getBlogPosts "https://jsonplaceholder.typicode.com/")
          [fun p => Except.ok (ngOnInitStep p)]).run
          (HttpResult.success 200 [Blog.mk 1 1 "t1" "b1"])) = 0)) ∧
    ∀ e ∈ ((pipeSteps (getBlogPosts "https://jsonplaceholder.typicode.com/")
        [fun p => Except.ok (ngOnInitStep p)]).run
        (HttpResult.success 200 [Blog.mk 1 1 "t1" "b1"])).dropLast,
      isTerminal e = false :=
  c2_single_emission_invariant "https://jsonplaceholder.typicode.com/"
    [fun p => Except.ok (ngOnInitStep p)]
    (HttpResult.success 200 [Blog.mk 1 1 "t1" "b1"])

/-- C3: if a transformation step throws while being applied to the emitted
value (the step returns `Except.error m`), the activation delivers exactly
one `error` event carrying the transform fault — `next` and `complete` are
never invoked in that activation. -/
theorem c3_step_throw_surfaces_onError (baseUrl : String) (s : Nat)
    (body : List Blog) (f : List Blog → Except String (List Blog)) (m : String)
    (h : is2xx s = true) (hf : f body = Except.error m) :
    (pipeMap (getBlogPosts baseUrl) f).run (HttpResult.success s body) =
      [Event.error (ErrorInfo.transformError m)] ∧
    nextCount ((pipeMap (getBlogPosts baseUrl) f).run (HttpResult.success s body)) = 0 ∧
    completeCount ((pipeMap (getBlogPosts baseUrl) f).run (HttpResult.success s body)) = 0 := by
  have h1 : (pipeMap (getBlogPosts baseUrl) f).run (HttpResult.success s body) =
      [Event.error (ErrorInfo.transformError m)] := by
    simp [pipeMap, getBlogPosts, httpGetEvents, h, mapEvents, hf]
  refine ⟨h1, ?_, ?_⟩ <;> simp [h1, nextCount, completeCount]

/-- Witness for C3: a filter predicate that throws on the element with
`id = 15` resolves the activation via `error (transformError ...)`. -/
theorem c3_step_throw_surfaces_onError_witness :
    is2xx 200 = true ∧
    filterE throwingPred [Blog.mk 1 1 "t1" "b1", Blog.mk 1 15 "t15" "b15"] =
      Except.error "malformed element" ∧
    (pipeMap (getBlogPosts "https://jsonplaceholder.typicode.com/")
        (filterE throwingPred)).run
        (HttpResult.success 200 [Blog.mk 1 1 "t1" "b1", Blog.mk 1 15 "t15" "b15"]) =
      [Event.error (ErrorInfo.transformError "malformed element")] := by
  refine ⟨by decide, rfl, ?_⟩
  exact (c3_step_throw_surfaces_onError "https://jsonplaceholder.typicode.com/" 200
    [Blog.mk 1 1 "t1" "b1", Blog.mk 1 15 "t15" "b15"]
    (filterE throwingPred) "malformed element" (by decide) rfl).1

/-- C4: on a transport failure, a non-2xx status, or an unparseable body,
both `getBlogPosts` and the full `ngOnInit` pipeline deliver exactly one
`error` event and never invoke `next` or `complete`; for a non-2xx status
the error carries that status code. -/
theorem c4_failure_surfaces_onError (baseUrl : String) (resp : HttpResult)
    (h : isSuccess2xx resp = false) :
    (∃ e, (getBlogPosts baseUrl).run resp = [Event.error e] ∧
      (ngOnInitProducer baseUrl).run resp = [Event.error e] ∧
      nextCount ((ngOnInitProducer baseUrl).run resp) = 0 ∧
      completeCount ((ngOnInitProducer baseUrl).run resp) = 0) ∧
    ∀ s body, resp = HttpResult.success s body →
      (getBlogPosts baseUrl).run resp =
        [Event.error (ErrorInfo.statusError s "Http failure response")] := by
  rcases run_failure_shape baseUrl resp h with ⟨e, he⟩
  refine ⟨⟨e, he, ?_, ?_, ?_⟩, ?_⟩
  · show mapEvents _ ((getBlogPosts baseUrl).run resp) = _
    rw [he]
    simp [mapEvents]
  · show nextCount (mapEvents _ ((getBlogPosts baseUrl).run resp)) = 0
    rw [he]
    simp [mapEvents, nextCount]
  · show completeCount (mapEvents _ ((getBlogPosts baseUrl).run resp)) = 0
    rw [he]
    simp [mapEvents, completeCount]
  · rintro s body rfl
    simp only [isSuccess2xx] at h
    simp [getBlogPosts, httpGetEvents, h]

/-- Witness for C4: a status-500 response delivers
`error (statusError 500 ...)`. -/
theorem c4_failure_surfaces_onError_witness :
    isSuccess2xx (HttpResult.success 500 []) = false ∧
    (getBlogPosts "https://jsonplaceholder.typicode.com/").run
        (HttpResult.success 500 []) =
      [Event.error (ErrorInfo.statusError 500 "Http failure response")] :=
  ⟨by decide,
    (c4_failure_surfaces_onError "https://jsonplaceholder.typicode.com/"
      (HttpResult.success 500 []) (by decide)).2 500 [] rfl⟩

/-- One round of the component's usage of the service: call `getBlogPosts`,
then subscribe to the producer it returned; yields the transport state
afterwards. -/
def callAndSubscribe (baseUrl : String) (t : Transport) : Transport :=
  (activate (getBlogPostsCall baseUrl t).1 (getBlogPostsCall baseUrl t).2).1

/-- C5: calling `getBlogPosts` by itself leaves the transport untouched
(the returned producer is inert); each activation issues exactly one GET,
recorded in the transport log; and two rounds of call-then-subscribe issue
two independent GETs — the transport's call count equals the number of
activations, with no caching or deduplication. -/
theorem c5_inert_until_activation_no_dedup (baseUrl : String) (t : Transport) :
    (getBlogPostsCall baseUrl t).1 = t ∧
    (∀ p : Producer (List Blog), (activate t p).1.log = t.log ++ [p.url]) ∧
    (callAndSubscribe baseUrl (callAndSubscribe baseUrl t)).log =
      t.log ++ [baseUrl ++ "posts", baseUrl ++ "posts"] ∧
    (callAndSubscribe baseUrl (callAndSubscribe baseUrl t)).log.length =
      t.log.length + 2 := by
  refine ⟨rfl, fun p => rfl, ?_, ?_⟩ <;>
    simp [callAndSubscribe, getBlogPostsCall, getBlogPosts, activate]

/-- Witness for C5 at a concrete transport double with an empty log. -/
theorem c5_inert_until_activation_no_dedup_witness :
    (getBlogPostsCall "https://jsonplaceholder.typicode.com/"
        (Transport.mk (fun _ => HttpResult.success 200 []) [])).1 =
      Transport.mk (fun _ => HttpResult.success 200 []) [] ∧
    (callAndSubscribe "https://jsonplaceholder.typicode.com/"
        (callAndSubscribe "https://jsonplaceholder.typicode.com/"
          (Transport.mk (fun _ => HttpResult.success 200 []) []))).log =
      ["https://jsonplaceholder.typicode.com/posts",
       "https://jsonplaceholder.typicode.com/posts"] := by
  have h := c5_inert_until_activation_no_dedup
    "https://jsonplaceholder.typicode.com/"
    (Transport.mk (fun _ => HttpResult.success 200 []) [])
  exact ⟨h.1, h.2.2.1⟩

/-- C6: on a successful 2xx response with a parseable body, `getBlogPosts`
invokes `next(body)` and then, immediately after, `complete()` (the trace
is exactly `[next body, complete]`); on a failed request it invokes a
single `error` instead, and `complete` is never called. -/
theorem c6_value_then_complete (baseUrl : String) (resp : HttpResult) :
    (∀ s body, resp = HttpResult.success s body → is2xx s = true →
        (getBlogPosts baseUrl).run resp = [Event.next body, Event.complete]) ∧
    (isSuccess2xx resp = false →
        ∃ e, (getBlogPosts baseUrl).run resp = [Event.error e] ∧
          completeCount ((getBlogPosts baseUrl).run resp) = 0) := by
  constructor
  · rintro s body rfl h2
    simp [getBlogPosts, httpGetEvents, h2]
  · intro h
    rcases run_failure_shape baseUrl resp h with ⟨e, he⟩
    exact ⟨e, he, by simp [he, completeCount]⟩

/-- Witness for C6: a 2xx response yields `next` then `complete`; a
transport failure yields a single `error` with no `complete`. -/
theorem c6_value_then_complete_witness :
    (getBlogPosts "https://jsonplaceholder.typicode.com/").run
        (HttpResult.success 200 [Blog.mk 1 1 "t1" "b1"]) =
      [Event.next [Blog.mk 1 1 "t1" "b1"], Event.complete] ∧
    ∃ e, (getBlogPosts "https://jsonplaceholder.typicode.com/").run
        (HttpResult.transportFail "network unreachable") = [Event.error e] ∧
      completeCount ((getBlogPosts "https://jsonplaceholder.typicode.com/").run
        (HttpResult.transportFail "network unreachable")) = 0 :=
  ⟨(c6_value_then_complete "https://jsonplaceholder.typicode.com/"
      (HttpResult.success 200 [Blog.mk 1 1 "t1" "b1"])).1 200
      [Blog.mk 1 1 "t1" "b1"] rfl (by decide),
   (c6_value_then_complete "https://jsonplaceholder.typicode.com/"
      (HttpResult.transportFail "network unreachable")).2 (by decide)⟩

/-- C7: for every value of `baseUrl`, the producer returned by
`getBlogPosts` targets exactly `baseUrl + "posts"`, and every GET an
activation issues is recorded against exactly that URL. -/
theorem c7_request_url (baseUrl : String) (t : Transport) :
    (getBlogPosts baseUrl).url = baseUrl ++ "posts" ∧
    (activate t (getBlogPosts baseUrl)).1.log = t.log ++ [baseUrl ++ "posts"] :=
  ⟨rfl, rfl⟩

/-- C8: the filter step is generic predicate-filtering with the threshold
as a parameter: for every threshold `n`, `filterBy (idLt n)` keeps exactly
the elements with `id < n` (as a sublist, preserving order), and the
worked example's step `p => p.filter(x => x.id < 10)` is exactly
`filterBy` instantiated at threshold `10`. -/
theorem c8_generic_filterBy (n : Int) (c : List Blog) :
    (∀ x : Blog, x ∈ filterBy (idLt n) c ↔ x ∈ c ∧ x.id < n) ∧
    (filterBy (idLt n) c).Sublist c ∧
    ngOnInitStep = filterBy (idLt 10) := by
  refine ⟨?_, List.filter_sublist c, rfl⟩
  intro x
  simp [filterBy, idLt, List.mem_filter]

/-- C9: the filter step does not alter its input's elements: its output is
a sublist of the input (each output element is an unmodified element of
the input, in the original order), and this holds for the `ngOnInit` step
in particular; the step is a pure function of the input collection. -/
theorem c9_filter_no_mutation (pred : Blog → Bool) (c : List Blog) :
    (filterBy pred c).Sublist c ∧
    (∀ x, x ∈ filterBy pred c → x ∈ c) ∧
    (ngOnInitStep c).Sublist c := by
  refine ⟨List.filter_sublist c, ?_, List.filter_sublist c⟩
  intro x hx
  exact List.Sublist.subset (List.filter_sublist c) hx

/-- Witness for C9 at a concrete collection and the worked predicate. -/
theorem c9_filter_no_mutation_witness :
    (filterBy (idLt 10) [Blog.mk 1 1 "t1" "b1", Blog.mk 1 15 "t15" "b15"]).Sublist
      [Blog.mk 1 1 "t1" "b1", Blog.mk 1 15 "t15" "b15"] ∧
    Blog.mk 1 1 "t1" "b1" ∈ [Blog.mk 1 1 "t1" "b1", Blog.mk 1 15 "t15" "b15"] :=
  ⟨(c9_filter_no_mutation (idLt 10)
      [Blog.mk 1 1 "t1" "b1", Blog.mk 1 15 "t15" "b15"]).1,
   (c9_filter_no_mutation (idLt 10)
      [Blog.mk 1 1 "t1" "b1", Blog.mk 1 15 "t15" "b15"]).2.1
      (Blog.mk 1 1 "t1" "b1") (by decide)⟩

/-- C10: the `ngOnInit` filter step (predicate `id < 10`) is idempotent:
applying it to its own output returns that output unchanged. -/
theorem c10_filter_idempotent (c : List Blog) :
    ngOnInitStep (ngOnInitStep c) = ngOnInitStep c := by
  simp [ngOnInitStep, List.filter_filter]

end BlogRx
